import Mathlib

/-!
# ElfScript Brigade: the Go solution template

A shallow embedding of `src/esb/boilers/go/template/main.go`.

The file declares two solver functions and an entry point:

    func solve_pt1(input_data string, args []string) (interface{}, error) { return 25, nil }
    func solve_pt2(input_data string, args []string) (interface{}, error) { return "December", nil }
    func main() { esb_fireplace.V1Run(solve_pt1, solve_pt2) }

Modelling choices.

* A Go function may read and write package-level state.  To be able to state
  that the solvers do not, every Go function is embedded in state-passing
  style over an arbitrary state type `G`: it receives the state and returns
  its results together with the state it leaves behind.
* A value boxed in `interface{}` carries its dynamic type; `GoValue` has one
  constructor per dynamic type the program can box, plus the nil interface.
* A Go `error` is `Option GoError`, with `none` for `nil`.
* `esb_fireplace.V1Run` belongs to an external module whose code is not part
  of this repository; `main` takes it as a parameter.
* A function that is polymorphic in `G` cannot inspect or invent a state, so
  the state-passing embedding cannot distinguish a solver that touches state
  from one that does not.  For the purity of the solvers their bodies are
  therefore also embedded as access trees (`GoProg`) over a concrete store of
  package-level variables (`GoStore`); executing a tree yields the result,
  the final store and the list of accesses made.
-/

set_option linter.unusedVariables false

namespace Esb

/-- A non-nil value of the Go interface type `error`. -/
structure GoError where
  msg : String
  deriving DecidableEq, Repr

/-- A value of Go type `interface{}`, tagged with its dynamic type.
The untyped constant `25` is boxed with dynamic type `int`, the constant
`"December"` with dynamic type `string`. -/
inductive GoValue where
  | nil : GoValue
  | int (n : Int) : GoValue
  | string (s : String) : GoValue
  deriving DecidableEq, Repr

/-- The result list `(interface{}, error)` of a solver. -/
abbrev SolverResult := GoValue × Option GoError

/-- The Go function type `func(string, []string) (interface{}, error)`, in
state-passing style over the state `G`. -/
abbrev Solver (G : Type) := String → List String → G → SolverResult × G

/-- Embedding of `func solve_pt1`: `return 25, nil`. -/
def solve_pt1 {G : Type} (input_data : String) (args : List String) (g : G) :
    SolverResult × G :=
  ((GoValue.int 25, none), g)

/-- Embedding of `func solve_pt2`: `return "December", nil`. -/
def solve_pt2 {G : Type} (input_data : String) (args : List String) (g : G) :
    SolverResult × G :=
  ((GoValue.string "December", none), g)

/-- Embedding of `func main`: its body is the single statement
`esb_fireplace.V1Run(solve_pt1, solve_pt2)`.  The runner `V1Run` is external,
so it is a parameter: any function of the two solvers and the state `w` in
which `main` starts, with any outcome type `α`. -/
def main {G W α : Type} (V1Run : Solver G → Solver G → W → α) (w : W) : α :=
  V1Run solve_pt1 solve_pt2 w

/-- A runner that does nothing but append the pair of solvers it was called
with to a log of calls. -/
def recordCall {G : Type} (part1 part2 : Solver G)
    (log : List (Solver G × Solver G)) : List (Solver G × Solver G) :=
  log ++ [(part1, part2)]

/-- A runner that invokes each solver once, part 1 then part 2, on the given
input and arguments, and returns the two results in that order. -/
def runBoth {G : Type} (input_data : String) (args : List String)
    (part1 part2 : Solver G) (g : G) : SolverResult × SolverResult :=
  let r1 := part1 input_data args g
  let r2 := part2 input_data args r1.2
  (r1.1, r2.1)

/-- Package-level state: the value held by every package-level variable,
looked up by its qualified name. -/
abbrev GoStore := String → GoValue

/-- One access of a function body to package-level state. -/
inductive Access where
  | read (name : String) : Access
  | write (name : String) (v : GoValue) : Access
  deriving DecidableEq, Repr

/-- The body of a Go function as a tree of accesses to package-level state:
it returns, or reads a variable and goes on with the value read, or assigns a
variable and goes on. -/
inductive GoProg (R : Type) where
  | ret (r : R) : GoProg R
  | load (name : String) (k : GoValue → GoProg R) : GoProg R
  | store (name : String) (v : GoValue) (k : GoProg R) : GoProg R

/-- Execution of a body from a store: the value returned, the store left
behind, and the accesses made, in order. -/
def GoProg.exec {R : Type} : GoProg R → GoStore → (R × GoStore) × List Access
  | GoProg.ret r, σ => ((r, σ), [])
  | GoProg.load name k, σ =>
    let out := (k (σ name)).exec σ
    (out.1, Access.read name :: out.2)
  | GoProg.store name v k, σ =>
    let out := k.exec (Function.update σ name v)
    (out.1, Access.write name v :: out.2)

/-- Body of `func solve_pt1` as an access tree: the single statement
`return 25, nil`, which names no variable. -/
def solve_pt1_body (input_data : String) (args : List String) :
    GoProg SolverResult :=
  GoProg.ret (GoValue.int 25, none)

/-- Body of `func solve_pt2` as an access tree: the single statement
`return "December", nil`, which names no variable. -/
def solve_pt2_body (input_data : String) (args : List String) :
    GoProg SolverResult :=
  GoProg.ret (GoValue.string "December", none)

/-- The store in which every package-level variable is the nil interface. -/
def GoStore.empty : GoStore := fun _ => GoValue.nil

/-- A body that does touch state: it reads the variable `calls`, assigns
`calls` the value `1`, and returns what it read. -/
def countingBody : GoProg SolverResult :=
  GoProg.load "calls" (fun v =>
    GoProg.store "calls" (GoValue.int 1) (GoProg.ret (v, none)))

/-! ## Theorems -/

/-- Execution records accesses and threads the store: `countingBody` makes a
read and a write, returns the nil it read, and leaves `calls` at `1`, so that
a second run returns a different answer. -/
theorem countingBody_exec :
    (countingBody.exec GoStore.empty).2
        = [Access.read "calls", Access.write "calls" (GoValue.int 1)] ∧
      (countingBody.exec GoStore.empty).1.1 = (GoValue.nil, none) ∧
      (countingBody.exec GoStore.empty).1.2 "calls" = GoValue.int 1 ∧
      (countingBody.exec (countingBody.exec GoStore.empty).1.2).1.1
        = (GoValue.int 1, none) := by
  refine ⟨rfl, rfl, ?_, ?_⟩
  · simp [countingBody, GoProg.exec]
  · simp [countingBody, GoProg.exec, GoStore.empty]

/-- C1: for every input text and every argument list, in every state,
`solve_pt1` returns the pair `(25, nil)`; in particular on the empty input
with no arguments. -/
theorem solve_pt1_returns_25 {G : Type} (g : G) :
    (∀ (input_data : String) (args : List String),
        (solve_pt1 input_data args g).1 = (GoValue.int 25, none)) ∧
      (solve_pt1 "" [] g).1 = (GoValue.int 25, none) :=
  ⟨fun _ _ => rfl, rfl⟩

/-- C2: for every input text and every argument list, in every state,
`solve_pt2` returns the pair `("December", nil)`; in particular on the empty
input with no arguments. -/
theorem solve_pt2_returns_December {G : Type} (g : G) :
    (∀ (input_data : String) (args : List String),
        (solve_pt2 input_data args g).1 = (GoValue.string "December", none)) ∧
      (solve_pt2 "" [] g).1 = (GoValue.string "December", none) :=
  ⟨fun _ _ => rfl, rfl⟩

/-- C3: neither solver ever fails: the error component of `solve_pt1` and of
`solve_pt2` is nil on every input, and so no input gives a non-nil error. -/
theorem solvers_never_fail {G : Type} :
    (∀ (input_data : String) (args : List String) (g : G),
        (solve_pt1 input_data args g).1.2 = none ∧
        (solve_pt2 input_data args g).1.2 = none) ∧
      (¬ ∃ (input_data : String) (args : List String) (g : G) (e : GoError),
        (solve_pt1 input_data args g).1.2 = some e ∨
        (solve_pt2 input_data args g).1.2 = some e) := by
  refine ⟨fun _ _ _ => ⟨rfl, rfl⟩, ?_⟩
  rintro ⟨i, a, g, e, h | h⟩
  · exact Option.noConfusion h
  · exact Option.noConfusion h

/-- C4: the solvers ignore their arguments: any two inputs and any two
argument lists give the same outcome, and the outcome on input `"12345"` with
arguments `["-v"]` is the outcome on the empty input with no arguments. -/
theorem solvers_ignore_arguments {G : Type} (g : G) :
    (∀ (i1 i2 : String) (a1 a2 : List String),
        solve_pt1 i1 a1 g = solve_pt1 i2 a2 g ∧
        solve_pt2 i1 a1 g = solve_pt2 i2 a2 g) ∧
      solve_pt1 "12345" ["-v"] g = solve_pt1 "" [] g ∧
      solve_pt2 "12345" ["-v"] g = solve_pt2 "" [] g :=
  ⟨fun _ _ _ _ => ⟨rfl, rfl⟩, rfl, rfl⟩

/-- C5: each solver is pure and deterministic.  Run from any store of
package-level variables, the body of `solve_pt1` and the body of `solve_pt2`
make no access to the store (they read and write nothing but their
parameters), leave the store as they found it, return a (result, error) pair
that is the same from every store, return the same pair again on a second run
made after the first, and return what the state-passing embeddings
`solve_pt1` and `solve_pt2` return. -/
theorem solvers_pure_deterministic (input_data : String) (args : List String) :
    (∀ σ : GoStore,
        ((solve_pt1_body input_data args).exec σ).2 = [] ∧
        ((solve_pt2_body input_data args).exec σ).2 = []) ∧
      (∀ σ : GoStore,
        ((solve_pt1_body input_data args).exec σ).1.2 = σ ∧
        ((solve_pt2_body input_data args).exec σ).1.2 = σ) ∧
      (∀ σ1 σ2 : GoStore,
        ((solve_pt1_body input_data args).exec σ1).1.1
            = ((solve_pt1_body input_data args).exec σ2).1.1 ∧
        ((solve_pt2_body input_data args).exec σ1).1.1
            = ((solve_pt2_body input_data args).exec σ2).1.1) ∧
      (∀ σ : GoStore,
        ((solve_pt1_body input_data args).exec
            ((solve_pt1_body input_data args).exec σ).1.2).1.1
          = ((solve_pt1_body input_data args).exec σ).1.1 ∧
        ((solve_pt2_body input_data args).exec
            ((solve_pt2_body input_data args).exec σ).1.2).1.1
          = ((solve_pt2_body input_data args).exec σ).1.1) ∧
      (∀ σ : GoStore,
        ((solve_pt1_body input_data args).exec σ).1 = solve_pt1 input_data args σ ∧
        ((solve_pt2_body input_data args).exec σ).1 = solve_pt2 input_data args σ) :=
  ⟨fun _ => ⟨rfl, rfl⟩, fun _ => ⟨rfl, rfl⟩, fun _ _ => ⟨rfl, rfl⟩,
    fun _ => ⟨rfl, rfl⟩, fun _ => ⟨rfl, rfl⟩⟩

/-- C6: for an arbitrary runner, `main` is exactly the one call of the runner
on `solve_pt1` (first) and `solve_pt2` (second): its outcome is the outcome of
that call; under a runner that logs its calls the log goes from empty to the
single entry `(solve_pt1, solve_pt2)`; and a runner that invokes its first and
then its second argument gets `25` and then `"December"`. -/
theorem main_calls_runner_once {G W α : Type} :
    (∀ (V1Run : Solver G → Solver G → W → α) (w : W),
        main V1Run w = V1Run solve_pt1 solve_pt2 w) ∧
      (∀ log : List (Solver G × Solver G),
        main recordCall log = log ++ [(solve_pt1, solve_pt2)]) ∧
      (main recordCall ([] : List (Solver G × Solver G))).length = 1 ∧
      (∀ (input_data : String) (args : List String) (g : G),
        main (runBoth input_data args) g
          = ((GoValue.int 25, none), (GoValue.string "December", none))) :=
  ⟨fun _ _ => rfl, fun _ => rfl, rfl, fun _ _ _ => rfl⟩

/-- C8: the two solvers have one and the same function type (both are used
here at the type `Solver G`), and on all inputs the answer of `solve_pt1` is
an integer and the answer of `solve_pt2` is a string, so that the two answers
are never equal. -/
theorem solvers_same_signature_different_shapes {G : Type} :
    ∀ (i1 i2 : String) (a1 a2 : List String) (g1 g2 : G),
      (∃ n : Int, ((solve_pt1 : Solver G) i1 a1 g1).1.1 = GoValue.int n) ∧
      (∃ s : String, ((solve_pt2 : Solver G) i2 a2 g2).1.1 = GoValue.string s) ∧
      ((solve_pt1 : Solver G) i1 a1 g1).1.1 ≠ ((solve_pt2 : Solver G) i2 a2 g2).1.1 := by
  intro i1 i2 a1 a2 g1 g2
  refine ⟨⟨25, rfl⟩, ⟨"December", rfl⟩, ?_⟩
  intro h
  exact GoValue.noConfusion h

end Esb
